import Mathlib

set_option maxRecDepth 8000

/-!
Shallow embedding of `gotobi_notifier.py`: civil-date arithmetic, the calendar
classifier, the bounded business-day normalizer, gotobi base-day generation,
fixing-day determination, the notification window test, and the run/retry
control flow of `run_once` / `main`.
-/

/-- Civil date (year, month, day), as carried by Python `datetime.date` values. -/
structure Date where
  year : Nat
  month : Nat
  day : Nat
  deriving DecidableEq, Repr

/-- An instant in the fixed observer time zone (JST): civil date plus time of day. -/
structure DateTime where
  date : Date
  hour : Nat
  minute : Nat
  second : Nat
  deriving DecidableEq, Repr

/-- Run configuration, mirroring the fields of the Python `Config` dataclass that
the core engine reads (holiday CSV paths and test switches that only steer I/O
are left to the environment model). Defaults mirror the dataclass defaults. -/
structure Config where
  include_day31 : Bool := true
  include_feb_last_day : Bool := true
  exclude_yearend_bank_closure : Bool := true
  enable_holiday_jp : Bool := true
  enable_holiday_us : Bool := true
  enforce_window : Bool := true
  window_prev_day_start_hhmm : Nat × Nat := (10, 0)
  window_fixing_end_hhmm : Nat × Nat := (9, 55)
  ntfy_server : String := "https://ntfy.sh"
  ntfy_topic_raw : String := "your_topic_here"
  notify_mode : String := "ntfy"
  enable_ntfy : Bool := true
  enable_state_update : Bool := true
  deriving DecidableEq, Repr

/-- The Python `Config()` with all defaults. -/
def defaultConfig : Config := {}

/-- `_date_key`: integer encoding `year*10000 + month*100 + day`. -/
def _date_key (d : Date) : Nat := d.year * 10000 + d.month * 100 + d.day

/-- `_is_leap_year`: divisible by 400, or by 4 and not by 100. -/
def _is_leap_year (year : Nat) : Bool :=
  decide (year % 400 = 0) || (decide (year % 4 = 0) && decide (year % 100 ≠ 0))

/-- `_days_in_month`. -/
def _days_in_month (year month : Nat) : Nat :=
  if month = 2 then (if _is_leap_year year then 29 else 28)
  else if month = 1 ∨ month = 3 ∨ month = 5 ∨ month = 7 ∨ month = 8 ∨ month = 10 ∨ month = 12
    then 31
  else 30

/-- `_is_yearend_closure_day`: December 31, or January 1-3. -/
def _is_yearend_closure_day (d : Date) : Bool :=
  (decide (d.month = 12) && decide (d.day = 31))
    || (decide (d.month = 1) && decide (1 ≤ d.day) && decide (d.day ≤ 3))

/-- Days in all years strictly before `year` in the proleptic Gregorian calendar
(the quantity underlying `datetime.date.toordinal`). -/
def daysBeforeYear (year : Nat) : Nat :=
  365 * (year - 1) + (year - 1) / 4 - (year - 1) / 100 + (year - 1) / 400

/-- Days in the months of `year` strictly before `month`. -/
def daysBeforeMonth (year month : Nat) : Nat :=
  (((List.range (month - 1)).map (fun k => _days_in_month year (k + 1))).sum)

/-- Proleptic Gregorian ordinal of a date (`datetime.date.toordinal`; 0001-01-01 is 1). -/
def toOrdinal (d : Date) : Nat :=
  daysBeforeYear d.year + daysBeforeMonth d.year d.month + d.day

/-- Python `date.weekday()`: Monday = 0 .. Sunday = 6. -/
def weekday (d : Date) : Nat := (toOrdinal d + 6) % 7

/-- `_is_holiday`: membership of the date's key in a holiday key set. -/
def _is_holiday (d : Date) (holiday_keys : List Nat) : Bool :=
  holiday_keys.contains (_date_key d)

/-- The previous calendar day (`date - timedelta(days=1)` on valid dates). -/
def predDate (d : Date) : Date :=
  if 1 < d.day then ⟨d.year, d.month, d.day - 1⟩
  else if 1 < d.month then ⟨d.year, d.month - 1, _days_in_month d.year (d.month - 1)⟩
  else ⟨d.year - 1, 12, 31⟩

/-- The next calendar day (`date + timedelta(days=1)` on valid dates). -/
def succDate (d : Date) : Date :=
  if d.day < _days_in_month d.year d.month then ⟨d.year, d.month, d.day + 1⟩
  else if d.month < 12 then ⟨d.year, d.month + 1, 1⟩
  else ⟨d.year + 1, 1, 1⟩

/-- `predDate` iterated `n` times: the date `n` calendar days before `d`. -/
def predIter : Nat → Date → Date
  | 0, d => d
  | n + 1, d => predIter n (predDate d)

/-- Membership of a date in an optional holiday set (`keys is not None` and the key is a
member); an absent set contributes nothing. -/
def holidayHit (d : Date) (keys : Option (List Nat)) : Bool :=
  match keys with
  | some l => _is_holiday d l
  | none => false

/-- The business-day test done in each iteration of `normalize_biz_day`'s loop:
not a weekend, not an enabled holiday, not an excluded year-end closure day. -/
def is_biz_day (cur : Date) (jp us : Option (List Nat)) (cfg : Config) : Bool :=
  let is_weekend := decide (5 ≤ weekday cur)
  let holJp := cfg.enable_holiday_jp && holidayHit cur jp
  let holUs := cfg.enable_holiday_us && holidayHit cur us
  let is_yearend := cfg.exclude_yearend_bank_closure && _is_yearend_closure_day cur
  (!is_weekend) && (!(holJp || holUs)) && (!is_yearend)

/-- The bounded backward loop of `normalize_biz_day`, with explicit fuel
(the Python `for _ in range(60)` instantiates fuel = 60). -/
def normalizeAux (jp us : Option (List Nat)) (cfg : Config) : Nat → Date → Date
  | 0, cur => cur
  | n + 1, cur =>
    if is_biz_day cur jp us cfg then cur else normalizeAux jp us cfg n (predDate cur)

/-- `normalize_biz_day`: roll back to the previous business day, at most 60 steps. -/
def normalize_biz_day (d : Date) (jp us : Option (List Nat)) (cfg : Config) : Date :=
  normalizeAux jp us cfg 60 d

/-- `build_gotobi_base_days`: candidate base days for (year, month). -/
def build_gotobi_base_days (year month : Nat) (cfg : Config) : List Nat :=
  let dim := _days_in_month year month
  (([5, 10, 15, 20, 25, 30].filter (fun d => decide (d ≤ dim)))
      ++ (if cfg.include_day31 = true ∧ 31 ≤ dim then
            (if ¬(cfg.exclude_yearend_bank_closure = true ∧ month = 12) then [31] else [])
          else []))
    ++ (if cfg.include_feb_last_day = true ∧ month = 2 then [dim] else [])

/-- The candidate loop of `is_fixing_day`: first base day whose normalization
survives the closure re-check and equals the target wins. -/
def is_fixing_day_go (target : Date) (jp us : Option (List Nat)) (cfg : Config) :
    List Nat → Bool × Nat
  | [] => (false, 0)
  | base_day :: rest =>
    let base_date : Date := ⟨target.year, target.month, base_day⟩
    let normalized := normalize_biz_day base_date jp us cfg
    if cfg.exclude_yearend_bank_closure = true ∧ _is_yearend_closure_day normalized = true then
      is_fixing_day_go target jp us cfg rest
    else if normalized = target then (true, base_day)
    else is_fixing_day_go target jp us cfg rest

/-- `is_fixing_day`: is `target` an effective gotobi (fixing) day, and for which base day. -/
def is_fixing_day (target : Date) (jp us : Option (List Nat)) (cfg : Config) : Bool × Nat :=
  is_fixing_day_go target jp us cfg (build_gotobi_base_days target.year target.month cfg)

/-- `choose_fixing_date`: today first, else tomorrow, else nothing. -/
def choose_fixing_date (now : DateTime) (jp us : Option (List Nat)) (cfg : Config) :
    Option Date × Nat :=
  let today := now.date
  let tomorrow := succDate today
  let resToday := is_fixing_day today jp us cfg
  if resToday.1 = true then (some today, resToday.2)
  else
    let resTom := is_fixing_day tomorrow jp us cfg
    if resTom.1 = true then (some tomorrow, resTom.2)
    else (none, 0)

/-- Chronological value of an instant (seconds since a fixed epoch scaled through
`_date_key`; order-faithful for calendar dates, which have month ≤ 12 and day ≤ 31). -/
def dtVal (t : DateTime) : Nat :=
  _date_key t.date * 86400 + t.hour * 3600 + t.minute * 60 + t.second

/-- The window start instant built by `in_notify_window`: the day before the fixing
date, at the configured start time. -/
def window_start (fixing_date : Date) (cfg : Config) : DateTime :=
  ⟨predDate fixing_date, cfg.window_prev_day_start_hhmm.1, cfg.window_prev_day_start_hhmm.2, 0⟩

/-- The window end instant built by `in_notify_window`: the fixing date at the
configured end time. -/
def window_end (fixing_date : Date) (cfg : Config) : DateTime :=
  ⟨fixing_date, cfg.window_fixing_end_hhmm.1, cfg.window_fixing_end_hhmm.2, 0⟩

/-- `in_notify_window`: `window_start <= now < window_end`. -/
def in_notify_window (now : DateTime) (fixing_date : Date) (cfg : Config) : Bool :=
  decide (dtVal (window_start fixing_date cfg) ≤ dtVal now)
    && decide (dtVal now < dtVal (window_end fixing_date cfg))

/-- Persisted notification state: the JSON record written by `run_once`
(`last_notified_fixing_yyyymmdd`, `last_notified_at_jst`, `notify_mode`, and for
ntfy mode also `ntfy_server` / `ntfy_topic`). A missing or unreadable state file
loads as the zero state. -/
structure NotifState where
  last_notified_fixing_yyyymmdd : Nat := 0
  last_notified_at : Nat := 0
  notify_mode : String := ""
  ntfy_server : Option String := none
  ntfy_topic : Option String := none
  deriving DecidableEq, Repr

/-- Exceptions that can escape `run_once`: input errors raised while loading
holiday CSVs (`FileNotFoundError` / `ValueError`), and dispatch errors raised by
the ntfy transport (`HTTPError` / `URLError`). -/
inductive RunErr where
  | inputError
  | dispatchError
  deriving DecidableEq, Repr

/-- Observable outcome of a successful `run_once`: its return value, the number
of dispatch calls it performed, and the state it leaves persisted. -/
structure RunOut where
  exit : Nat
  dispatches : Nat
  state : NotifState
  deriving DecidableEq, Repr

/-- Holiday-key resolution at the top of `run_once`: when a calendar is enabled
the external loader's outcome is consulted (a load failure raises an input
error); a disabled calendar contributes `none`. -/
def effKeys (enabled : Bool) (load : Except Unit (List Nat)) :
    Except RunErr (Option (List Nat)) :=
  if enabled then
    match load with
    | .ok keys => .ok (some keys)
    | .error _ => .error RunErr.inputError
  else .ok none

/-- The state payload written by `run_once` after a successful dispatch decision:
`state.update(...)` overwrites the notified key, the timestamp and the transport,
and in ntfy mode also the server and topic; other fields are retained. -/
def updateState (st : NotifState) (cfg : Config) (fixing_date : Date) (now : DateTime) :
    NotifState :=
  { last_notified_fixing_yyyymmdd := _date_key fixing_date
    last_notified_at := dtVal now
    notify_mode := cfg.notify_mode
    ntfy_server := if cfg.notify_mode = "ntfy" then some cfg.ntfy_server else st.ntfy_server
    ntfy_topic := if cfg.notify_mode = "ntfy" then some cfg.ntfy_topic_raw else st.ntfy_topic }

/-- The dispatch section of `run_once`: local mode calls `local_notify` (which
never raises, even on failure), ntfy mode calls `ntfy_publish` when enabled
(raising on a failed attempt), and disabled ntfy performs no dispatch call.
Returns the number of dispatch calls performed. -/
def dispatchStep (cfg : Config) (dispatchOk : Bool) : Except RunErr Nat :=
  if cfg.notify_mode = "local" then .ok 1
  else if cfg.enable_ntfy = true then
    (if dispatchOk then .ok 1 else .error RunErr.dispatchError)
  else .ok 0

/-- `run_once`, as a function of the externally supplied instant, the holiday
loader outcomes, the dispatch outcome of this attempt, and the loaded state. -/
def run_once (cfg : Config) (now : DateTime) (jp us : Except Unit (List Nat))
    (dispatchOk : Bool) (st : NotifState) : Except RunErr RunOut :=
  match effKeys cfg.enable_holiday_jp jp with
  | .error e => .error e
  | .ok holiday_keys_jp =>
    match effKeys cfg.enable_holiday_us us with
    | .error e => .error e
    | .ok holiday_keys_us =>
      match choose_fixing_date now holiday_keys_jp holiday_keys_us cfg with
      | (none, _) => .ok ⟨0, 0, st⟩
      | (some fixing_date, _base_day) =>
        if cfg.enforce_window = true ∧ in_notify_window now fixing_date cfg = false then
          .ok ⟨0, 0, st⟩
        else
          if st.last_notified_fixing_yyyymmdd = _date_key fixing_date then .ok ⟨0, 0, st⟩
          else
            match dispatchStep cfg dispatchOk with
            | .error e => .error e
            | .ok n =>
              .ok ⟨0, n,
                if cfg.enable_state_update = true then updateState st cfg fixing_date now
                else st⟩

/-- Externally visible step of `main`'s retry loop: an evaluation attempt, or the
fixed backoff delay (in seconds) between the two attempts. -/
inductive Event where
  | attempt
  | sleep (seconds : Nat)
  deriving DecidableEq, Repr

/-- `main`'s retry loop: attempt `run_once`; an input error returns 2 at once; a
dispatch error is retried exactly once after `time.sleep(10)`; a second dispatch
error returns 1. Produces the exit status, the event trace, and the state left
persisted (the state file is untouched by a failed attempt). -/
def main_model (cfg : Config) (now1 now2 : DateTime) (jp us : Except Unit (List Nat))
    (st : NotifState) (dispatchOk1 dispatchOk2 : Bool) : Nat × List Event × NotifState :=
  match run_once cfg now1 jp us dispatchOk1 st with
  | .ok out => (out.exit, [Event.attempt], out.state)
  | .error RunErr.inputError => (2, [Event.attempt], st)
  | .error RunErr.dispatchError =>
    match run_once cfg now2 jp us dispatchOk2 st with
    | .ok out => (out.exit, [Event.attempt, Event.sleep 10, Event.attempt], out.state)
    | .error RunErr.inputError => (2, [Event.attempt, Event.sleep 10, Event.attempt], st)
    | .error RunErr.dispatchError => (1, [Event.attempt, Event.sleep 10, Event.attempt], st)

/-- An adversarial holiday set: every calendar day from 2026-03-01 through
2026-06-30 (122 consecutive days), as integer date keys. -/
def adversarialKeys : List Nat :=
  ((List.range 31).map (fun i => 20260301 + i))
    ++ ((List.range 30).map (fun i => 20260401 + i))
    ++ ((List.range 31).map (fun i => 20260501 + i))
    ++ ((List.range 30).map (fun i => 20260601 + i))

/-- Month/day components small enough that `_date_key` is order-faithful; every
date reachable from a valid date by `predDate` satisfies this. -/
def SmallDate (d : Date) : Prop := d.month ≤ 12 ∧ d.day ≤ 31

theorem days_in_month_le_31 (year month : Nat) : _days_in_month year month ≤ 31 := by
  unfold _days_in_month
  split_ifs <;> omega

theorem days_in_month_ge_28 (year month : Nat) : 28 ≤ _days_in_month year month := by
  unfold _days_in_month
  split_ifs <;> omega

theorem feb_days_le_29 (year : Nat) : _days_in_month year 2 ≤ 29 := by
  unfold _days_in_month
  split_ifs <;> omega

theorem date_key_predDate_lt (d : Date) (hy : 1 ≤ d.year) :
    _date_key (predDate d) < _date_key d := by
  unfold predDate _date_key
  split_ifs with h1 h2
  · simp only
    omega
  · have := days_in_month_le_31 d.year (d.month - 1)
    simp only
    omega
  · simp only
    omega

theorem smallDate_predDate {d : Date} (h : SmallDate d) : SmallDate (predDate d) := by
  obtain ⟨hm, hd⟩ := h
  unfold predDate SmallDate
  have := days_in_month_le_31 d.year (d.month - 1)
  split_ifs <;> simp only <;> omega

theorem predDate_year_le (d : Date) : (predDate d).year ≤ d.year := by
  unfold predDate
  split_ifs <;> simp only <;> omega

theorem date_key_le_of_small {d : Date} (h : SmallDate d) :
    _date_key d ≤ d.year * 10000 + 1231 := by
  obtain ⟨hm, hd⟩ := h
  unfold _date_key
  omega

theorem normalizeAux_year_le (jp us : Option (List Nat)) (cfg : Config) :
    ∀ (n : Nat) (d : Date), (normalizeAux jp us cfg n d).year ≤ d.year := by
  intro n
  induction n with
  | zero => intro d; simp [normalizeAux]
  | succ n ih =>
    intro d
    unfold normalizeAux
    split
    · exact Nat.le_refl _
    · exact Nat.le_trans (ih (predDate d)) (predDate_year_le d)

theorem normalizeAux_small (jp us : Option (List Nat)) (cfg : Config) :
    ∀ (n : Nat) (d : Date), SmallDate d → SmallDate (normalizeAux jp us cfg n d) := by
  intro n
  induction n with
  | zero => intro d h; simpa [normalizeAux] using h
  | succ n ih =>
    intro d h
    unfold normalizeAux
    split
    · exact h
    · exact ih (predDate d) (smallDate_predDate h)

theorem date_key_normalizeAux_le (jp us : Option (List Nat)) (cfg : Config) :
    ∀ (n : Nat) (d : Date), SmallDate d → 1 ≤ d.year →
      _date_key (normalizeAux jp us cfg n d) ≤ _date_key d := by
  intro n
  induction n with
  | zero => intro d _ _; simp [normalizeAux]
  | succ n ih =>
    intro d hs hy
    unfold normalizeAux
    split
    · exact Nat.le_refl _
    · have hs' : SmallDate (predDate d) := smallDate_predDate hs
      by_cases hy' : 1 ≤ (predDate d).year
      · exact Nat.le_trans (ih (predDate d) hs' hy')
          (Nat.le_of_lt (date_key_predDate_lt d hy))
      · have h0 : (predDate d).year = 0 := by omega
        have hk : _date_key (normalizeAux jp us cfg n (predDate d))
            ≤ (normalizeAux jp us cfg n (predDate d)).year * 10000 + 1231 :=
          date_key_le_of_small (normalizeAux_small jp us cfg n (predDate d) hs')
        have hyle : (normalizeAux jp us cfg n (predDate d)).year ≤ 0 := by
          have := normalizeAux_year_le jp us cfg n (predDate d)
          omega
        have hkd : 10000 ≤ _date_key d := by
          unfold _date_key
          omega
        omega

theorem date_key_normalize_le (d : Date) (jp us : Option (List Nat)) (cfg : Config)
    (hs : SmallDate d) (hy : 1 ≤ d.year) :
    _date_key (normalize_biz_day d jp us cfg) ≤ _date_key d :=
  date_key_normalizeAux_le jp us cfg 60 d hs hy

theorem mem_ite_nil_right {α : Type} (p : Prop) [Decidable p] (x : α) (l : List α) :
    (x ∈ if p then l else []) ↔ p ∧ x ∈ l := by
  split_ifs with h <;> simp [h]

theorem build_mem_iff (year month : Nat) (cfg : Config) (d : Nat) :
    d ∈ build_gotobi_base_days year month cfg ↔
      ((d = 5 ∨ d = 10 ∨ d = 15 ∨ d = 20 ∨ d = 25 ∨ d = 30) ∧ d ≤ _days_in_month year month)
      ∨ (d = 31 ∧ cfg.include_day31 = true ∧ 31 ≤ _days_in_month year month
          ∧ ¬(cfg.exclude_yearend_bank_closure = true ∧ month = 12))
      ∨ (d = _days_in_month year month ∧ month = 2 ∧ cfg.include_feb_last_day = true) := by
  simp only [build_gotobi_base_days, List.mem_append, List.mem_filter, mem_ite_nil_right,
    List.mem_cons, List.not_mem_nil, or_false, decide_eq_true_eq]
  tauto

theorem build_mem_bounds (year month : Nat) (cfg : Config) :
    ∀ b ∈ build_gotobi_base_days year month cfg,
      1 ≤ b ∧ b ≤ _days_in_month year month := by
  intro b hb
  rw [build_mem_iff] at hb
  have h28 := days_in_month_ge_28 year month
  rcases hb with ⟨hd, hle⟩ | ⟨hd, _, hle, _⟩ | ⟨hd, _, _⟩ <;> omega

theorem build_pairwise (year month : Nat) (cfg : Config) :
    List.Pairwise (· < ·) (build_gotobi_base_days year month cfg) := by
  have h28 := days_in_month_ge_28 year month
  have hfeb := feb_days_le_29 year
  simp only [build_gotobi_base_days]
  refine List.pairwise_append.mpr ⟨List.pairwise_append.mpr ⟨?_, ?_, ?_⟩, ?_, ?_⟩
  · exact List.Pairwise.sublist (List.filter_sublist _) (by decide)
  · split_ifs <;> simp
  · intro a ha b hb
    rw [List.mem_filter] at ha
    have ha30 : a = 5 ∨ a = 10 ∨ a = 15 ∨ a = 20 ∨ a = 25 ∨ a = 30 := by
      simpa using ha.1
    split_ifs at hb <;> simp_all <;> omega
  · split_ifs <;> simp
  · intro a ha c hc
    split_ifs at hc with h3
    · simp only [List.mem_cons, List.not_mem_nil, or_false] at hc
      subst hc
      have hm2 : month = 2 := h3.2
      rcases List.mem_append.mp ha with ha' | ha'
      · rw [List.mem_filter] at ha'
        have ha30 : a = 5 ∨ a = 10 ∨ a = 15 ∨ a = 20 ∨ a = 25 ∨ a = 30 := by
          simpa using ha'.1
        have hle : a ≤ _days_in_month year month := by simpa using ha'.2
        subst hm2
        omega
      · split_ifs at ha' with h1 h2 <;> simp_all <;> omega
    · simp at hc

theorem is_fixing_day_go_mem (target : Date) (jp us : Option (List Nat)) (cfg : Config) :
    ∀ l : List Nat, (is_fixing_day_go target jp us cfg l).1 = true →
      (is_fixing_day_go target jp us cfg l).2 ∈ l := by
  intro l
  induction l with
  | nil => intro h; simp [is_fixing_day_go] at h
  | cons b rest ih =>
    intro h
    simp only [is_fixing_day_go] at h ⊢
    split_ifs at h ⊢ with h1 h2
    · exact List.mem_cons_of_mem _ (ih h)
    · simp
    · exact List.mem_cons_of_mem _ (ih h)

theorem normalizeAux_find (jp us : Option (List Nat)) (cfg : Config) :
    ∀ (n : Nat) (d : Date),
      normalizeAux jp us cfg n d =
        ((((List.range n).map (fun i => predIter i d)).find?
            (fun e => is_biz_day e jp us cfg)).getD (predIter n d)) := by
  intro n
  induction n with
  | zero => intro d; simp [normalizeAux, predIter]
  | succ n ih =>
    intro d
    rw [List.range_succ_eq_map]
    have hmap : List.map (fun i => predIter i d) (List.map Nat.succ (List.range n))
        = List.map (fun i => predIter i (predDate d)) (List.range n) := by
      rw [List.map_map]; rfl
    simp only [List.map_cons, hmap]
    by_cases h : is_biz_day d jp us cfg
    · rw [List.find?_cons_of_pos _ (by simpa [predIter] using h)]
      simp [normalizeAux, h, predIter]
    · rw [List.find?_cons_of_neg _ (by simpa [predIter] using h)]
      have hfall : predIter (n + 1) d = predIter n (predDate d) := rfl
      rw [hfall]
      simpa [normalizeAux, h] using ih (predDate d)

theorem normalizeAux_fix (jp us : Option (List Nat)) (cfg : Config) (e : Date) (n : Nat)
    (h : is_biz_day e jp us cfg = true) : normalizeAux jp us cfg (n + 1) e = e := by
  simp [normalizeAux, h]

theorem normalize_biz_day_fix (e : Date) (jp us : Option (List Nat)) (cfg : Config)
    (h : is_biz_day e jp us cfg = true) : normalize_biz_day e jp us cfg = e := by
  unfold normalize_biz_day
  rw [show (60 : Nat) = 59 + 1 by norm_num]
  exact normalizeAux_fix jp us cfg e 59 h

theorem contains_eq_false_of_not_mem {l : List Nat} {a : Nat} (h : a ∉ l) :
    l.contains a = false := by
  induction l with
  | nil => rfl
  | cons x xs ih =>
    simp only [List.contains_cons, Bool.or_eq_false_iff]
    refine ⟨?_, ih (fun hm => h (List.mem_cons_of_mem x hm))⟩
    simp only [beq_eq_false_iff_ne, ne_eq]
    intro he
    exact h (he ▸ List.mem_cons_self x xs)

theorem is_fixing_day_go_cons_ne (target : Date) (jp us : Option (List Nat)) (cfg : Config)
    (b : Nat) (rest : List Nat)
    (h : normalize_biz_day ⟨target.year, target.month, b⟩ jp us cfg ≠ target) :
    is_fixing_day_go target jp us cfg (b :: rest) = is_fixing_day_go target jp us cfg rest := by
  simp only [is_fixing_day_go]
  split_ifs with h1
  · rfl
  · rfl

theorem run_once_exit_zero (cfg : Config) (now : DateTime) (jp us : Except Unit (List Nat))
    (dispatchOk : Bool) (st : NotifState) (out : RunOut)
    (h : run_once cfg now jp us dispatchOk st = Except.ok out) : out.exit = 0 := by
  unfold run_once at h
  repeat' split at h
  all_goals simp_all
  all_goals (obtain rfl := h; rfl)

/-- C1: the candidate base-day list of `build_gotobi_base_days` consists exactly of the
elements of {5,10,15,20,25,30} that are ≤ days-in-month; plus 31 iff `include_day31` is
enabled, days-in-month ≥ 31 and not (year-end-closure exclusion enabled and month = 12);
plus the last day of February iff month = 2 and `include_feb_last_day` is enabled. -/
theorem build_gotobi_base_days_mem_spec (year month : Nat) (cfg : Config) (d : Nat) :
    d ∈ build_gotobi_base_days year month cfg ↔
      ((d = 5 ∨ d = 10 ∨ d = 15 ∨ d = 20 ∨ d = 25 ∨ d = 30) ∧ d ≤ _days_in_month year month)
      ∨ (d = 31 ∧ cfg.include_day31 = true ∧ 31 ≤ _days_in_month year month
          ∧ ¬(cfg.exclude_yearend_bank_closure = true ∧ month = 12))
      ∨ (d = _days_in_month year month ∧ month = 2 ∧ cfg.include_feb_last_day = true) :=
  build_mem_iff year month cfg d

/-- C10: for every year, month and configuration, `build_gotobi_base_days` is strictly
increasing and each element lies between 1 and days-in-month inclusive. -/
theorem build_gotobi_base_days_sorted_bounded (year month : Nat) (cfg : Config) :
    List.Pairwise (· < ·) (build_gotobi_base_days year month cfg)
    ∧ ∀ b ∈ build_gotobi_base_days year month cfg,
        1 ≤ b ∧ b ≤ _days_in_month year month :=
  ⟨build_pairwise year month cfg, build_mem_bounds year month cfg⟩

/-- Witness for C10 at January 2026 with the default configuration and base day 5. -/
theorem build_gotobi_base_days_sorted_bounded_witness :
    List.Pairwise (· < ·) (build_gotobi_base_days 2026 1 defaultConfig)
    ∧ (1 ≤ 5 ∧ 5 ≤ _days_in_month 2026 1) :=
  ⟨(build_gotobi_base_days_sorted_bounded 2026 1 defaultConfig).1,
   (build_gotobi_base_days_sorted_bounded 2026 1 defaultConfig).2 5 (by decide)⟩

/-- C2 counterexample: with an adversarial holiday set covering 2026-03-01 through
2026-06-30, `normalize_biz_day` of 2026-06-30 exhausts its 60-step bound and lands on
2026-05-01, still a holiday, so a second normalization moves further back: the function
is not idempotent for every holiday key set. -/
theorem normalize_biz_day_not_idempotent_counterexample :
    normalize_biz_day (normalize_biz_day ⟨2026, 6, 30⟩ (some adversarialKeys) none
        defaultConfig) (some adversarialKeys) none defaultConfig
      ≠ normalize_biz_day ⟨2026, 6, 30⟩ (some adversarialKeys) none defaultConfig := by
  decide

/-- C2 amended: `normalize_biz_day` is idempotent whenever its result is a business day,
i.e. whenever the backward search found a business day within its 60-step bound (only an
exhausted bound can return a non-business day and break idempotence). -/
theorem normalize_biz_day_idempotent_on_business_result (d : Date)
    (jp us : Option (List Nat)) (cfg : Config)
    (h : is_biz_day (normalize_biz_day d jp us cfg) jp us cfg = true) :
    normalize_biz_day (normalize_biz_day d jp us cfg) jp us cfg
      = normalize_biz_day d jp us cfg :=
  normalize_biz_day_fix (normalize_biz_day d jp us cfg) jp us cfg h

/-- Witness for the amended C2 at 2026-01-05 (a Monday) with no holidays. -/
theorem normalize_biz_day_idempotent_witness :
    normalize_biz_day (normalize_biz_day ⟨2026, 1, 5⟩ none none defaultConfig) none none
        defaultConfig
      = normalize_biz_day ⟨2026, 1, 5⟩ none none defaultConfig :=
  normalize_biz_day_idempotent_on_business_result ⟨2026, 1, 5⟩ none none defaultConfig
    (by decide)

/-- C6: `normalize_biz_day` inspects at most the 60 dates d, d-1, ..., d-59, returns the
first business day among them, and if none is a business day returns the date 60 calendar
days before d (the date reached at the 60th backward step) as a degraded result rather
than a failure. -/
theorem normalize_biz_day_bounded_search_spec (d : Date) (jp us : Option (List Nat))
    (cfg : Config) :
    normalize_biz_day d jp us cfg =
      ((((List.range 60).map (fun i => predIter i d)).find?
          (fun e => is_biz_day e jp us cfg)).getD (predIter 60 d)) :=
  normalizeAux_find jp us cfg 60 d

/-- C8 counterexample: 2026-01-08 is not a fixing day under the default configuration, and
`is_fixing_day` then returns base day 0, which is outside the range 1..31 — so the claim
does not hold for every target date. -/
theorem is_fixing_day_base_day_counterexample :
    ¬(1 ≤ (is_fixing_day ⟨2026, 1, 8⟩ none none defaultConfig).2
        ∧ (is_fixing_day ⟨2026, 1, 8⟩ none none defaultConfig).2 ≤ 31) := by
  decide

/-- C8 amended: whenever `is_fixing_day` reports found = true, the returned base day is an
integer in the range 1 to 31. -/
theorem is_fixing_day_base_day_range (target : Date) (jp us : Option (List Nat))
    (cfg : Config) (h : (is_fixing_day target jp us cfg).1 = true) :
    1 ≤ (is_fixing_day target jp us cfg).2 ∧ (is_fixing_day target jp us cfg).2 ≤ 31 := by
  have hm : (is_fixing_day target jp us cfg).2
      ∈ build_gotobi_base_days target.year target.month cfg :=
    is_fixing_day_go_mem target jp us cfg _ h
  have hb := build_mem_bounds target.year target.month cfg _ hm
  have h31 := days_in_month_le_31 target.year target.month
  omega

/-- Witness for the amended C8 at 2026-01-05, a fixing day with base day 5. -/
theorem is_fixing_day_base_day_range_witness :
    1 ≤ (is_fixing_day ⟨2026, 1, 5⟩ none none defaultConfig).2
      ∧ (is_fixing_day ⟨2026, 1, 5⟩ none none defaultConfig).2 ≤ 31 :=
  is_fixing_day_base_day_range ⟨2026, 1, 5⟩ none none defaultConfig (by decide)

/-- C4: `in_notify_window` returns true exactly when (fixing date − 1 day) at the
configured start time ≤ now < fixing date at the configured end time; the instant equal
to the start bound is included and the instant equal to the end bound is excluded. -/
theorem in_notify_window_spec (now : DateTime) (f : Date) (cfg : Config)
    (hy : 1 ≤ f.year)
    (hsh : cfg.window_prev_day_start_hhmm.1 ≤ 23)
    (hsm : cfg.window_prev_day_start_hhmm.2 ≤ 59) :
    (in_notify_window now f cfg = true ↔
        dtVal (window_start f cfg) ≤ dtVal now ∧ dtVal now < dtVal (window_end f cfg))
    ∧ in_notify_window (window_start f cfg) f cfg = true
    ∧ in_notify_window (window_end f cfg) f cfg = false := by
  have hlt : dtVal (window_start f cfg) < dtVal (window_end f cfg) := by
    have hk := date_key_predDate_lt f hy
    unfold dtVal window_start window_end
    simp only
    have h1 : cfg.window_prev_day_start_hhmm.1 * 3600
        + cfg.window_prev_day_start_hhmm.2 * 60 + 0 < 86400 := by omega
    calc _date_key (predDate f) * 86400 + cfg.window_prev_day_start_hhmm.1 * 3600
          + cfg.window_prev_day_start_hhmm.2 * 60 + 0
        < _date_key (predDate f) * 86400 + 86400 := by omega
      _ = (_date_key (predDate f) + 1) * 86400 := by ring
      _ ≤ _date_key f * 86400 := Nat.mul_le_mul_right _ hk
      _ ≤ _ := by omega
  refine ⟨?_, ?_, ?_⟩
  · simp [in_notify_window]
  · simp only [in_notify_window, Bool.and_eq_true, decide_eq_true_eq]
    exact ⟨Nat.le_refl _, hlt⟩
  · have hirr : ¬(dtVal (window_end f cfg) < dtVal (window_end f cfg)) := by omega
    simp [in_notify_window, hirr]

/-- Witness for C4 at the fixing date 2026-01-05 under the default configuration and the
instant 2026-01-04 10:30 JST. -/
theorem in_notify_window_spec_witness :
    (in_notify_window ⟨⟨2026, 1, 4⟩, 10, 30, 0⟩ ⟨2026, 1, 5⟩ defaultConfig = true ↔
        dtVal (window_start ⟨2026, 1, 5⟩ defaultConfig)
            ≤ dtVal ⟨⟨2026, 1, 4⟩, 10, 30, 0⟩
          ∧ dtVal ⟨⟨2026, 1, 4⟩, 10, 30, 0⟩ < dtVal (window_end ⟨2026, 1, 5⟩ defaultConfig))
    ∧ in_notify_window (window_start ⟨2026, 1, 5⟩ defaultConfig) ⟨2026, 1, 5⟩ defaultConfig
        = true
    ∧ in_notify_window (window_end ⟨2026, 1, 5⟩ defaultConfig) ⟨2026, 1, 5⟩ defaultConfig
        = false :=
  in_notify_window_spec ⟨⟨2026, 1, 4⟩, 10, 30, 0⟩ ⟨2026, 1, 5⟩ defaultConfig (by decide)
    (by decide) (by decide)

/-- C5: `choose_fixing_date` evaluates today first and returns it with its base day when
it is a fixing day; otherwise it evaluates tomorrow and returns it when it is a fixing
day; otherwise it returns no date. When both days qualify it reports today, and any date
it returns is today or tomorrow. -/
theorem choose_fixing_date_spec (now : DateTime) (jp us : Option (List Nat))
    (cfg : Config) :
    ((is_fixing_day now.date jp us cfg).1 = true →
        choose_fixing_date now jp us cfg
          = (some now.date, (is_fixing_day now.date jp us cfg).2))
    ∧ ((is_fixing_day now.date jp us cfg).1 = false →
        (is_fixing_day (succDate now.date) jp us cfg).1 = true →
        choose_fixing_date now jp us cfg
          = (some (succDate now.date), (is_fixing_day (succDate now.date) jp us cfg).2))
    ∧ ((is_fixing_day now.date jp us cfg).1 = false →
        (is_fixing_day (succDate now.date) jp us cfg).1 = false →
        choose_fixing_date now jp us cfg = (none, 0))
    ∧ (∀ (d : Date) (b : Nat), choose_fixing_date now jp us cfg = (some d, b) →
        d = now.date ∨ d = succDate now.date) := by
  refine ⟨?_, ?_, ?_, ?_⟩
  · intro h
    simp [choose_fixing_date, h]
  · intro h0 h1
    simp [choose_fixing_date, h0, h1]
  · intro h0 h1
    simp [choose_fixing_date, h0, h1]
  · intro d b h
    simp only [choose_fixing_date] at h
    split_ifs at h with h1 h2
    · have hfst := congrArg Prod.fst h
      simp only [Option.some.injEq] at hfst
      exact Or.inl hfst.symm
    · have hfst := congrArg Prod.fst h
      simp only [Option.some.injEq] at hfst
      exact Or.inr hfst.symm
    · simp at h

/-- Witness for C5 at 2026-01-05 08:00 JST, where today is itself a fixing day. -/
theorem choose_fixing_date_spec_witness :
    choose_fixing_date ⟨⟨2026, 1, 5⟩, 8, 0, 0⟩ none none defaultConfig
      = (some (⟨⟨2026, 1, 5⟩, 8, 0, 0⟩ : DateTime).date,
         (is_fixing_day (⟨⟨2026, 1, 5⟩, 8, 0, 0⟩ : DateTime).date none none defaultConfig).2) :=
  (choose_fixing_date_spec ⟨⟨2026, 1, 5⟩, 8, 0, 0⟩ none none defaultConfig).1 (by decide)

/-- C3: from the same persisted state, two consecutive runs resolving the same fixing day
in-window, with a successful first dispatch and state update enabled, perform exactly one
dispatch call in total: the first run dispatches once and stores the fixing day's key; the
second run sees the stored key equal to the fixing key, suppresses (no dispatch, no state
change) and returns exit status 0. -/
theorem run_once_dedup_exactly_one_dispatch (cfg : Config) (now1 now2 : DateTime)
    (jp us : Except Unit (List Nat)) (kj ku : Option (List Nat)) (d2 : Bool)
    (st : NotifState) (f : Date) (b1 b2 : Nat)
    (hjp : effKeys cfg.enable_holiday_jp jp = Except.ok kj)
    (hus : effKeys cfg.enable_holiday_us us = Except.ok ku)
    (hfix1 : choose_fixing_date now1 kj ku cfg = (some f, b1))
    (hfix2 : choose_fixing_date now2 kj ku cfg = (some f, b2))
    (hw1 : in_notify_window now1 f cfg = true)
    (hw2 : in_notify_window now2 f cfg = true)
    (hnew : st.last_notified_fixing_yyyymmdd ≠ _date_key f)
    (hupd : cfg.enable_state_update = true)
    (hdisp : cfg.notify_mode = "local" ∨ cfg.enable_ntfy = true) :
    run_once cfg now1 jp us true st = Except.ok ⟨0, 1, updateState st cfg f now1⟩
    ∧ (updateState st cfg f now1).last_notified_fixing_yyyymmdd = _date_key f
    ∧ run_once cfg now2 jp us d2 (updateState st cfg f now1)
        = Except.ok ⟨0, 0, updateState st cfg f now1⟩ := by
  have hdsp : dispatchStep cfg true = Except.ok 1 := by
    rcases hdisp with hl | hn
    · simp [dispatchStep, hl]
    · by_cases hl : cfg.notify_mode = "local" <;> simp [dispatchStep, hl, hn]
  refine ⟨?_, rfl, ?_⟩
  · unfold run_once
    rw [hjp, hus]
    simp [hfix1, hw1, hnew, hdsp, hupd]
  · unfold run_once
    rw [hjp, hus]
    simp [hfix2, hw2, updateState]

/-- Witness for C3: the fixing day 2026-01-05 seen from 2026-01-04 at 10:30 and 11:00 JST
under the default configuration with holiday calendars disabled, starting from the zero
state. -/
theorem run_once_dedup_witness :
    run_once { defaultConfig with enable_holiday_jp := false, enable_holiday_us := false }
        ⟨⟨2026, 1, 4⟩, 10, 30, 0⟩ (Except.ok []) (Except.ok []) true {}
      = Except.ok ⟨0, 1,
          updateState {}
            { defaultConfig with enable_holiday_jp := false, enable_holiday_us := false }
            ⟨2026, 1, 5⟩ ⟨⟨2026, 1, 4⟩, 10, 30, 0⟩⟩
    ∧ (updateState {}
          { defaultConfig with enable_holiday_jp := false, enable_holiday_us := false }
          ⟨2026, 1, 5⟩ ⟨⟨2026, 1, 4⟩, 10, 30, 0⟩).last_notified_fixing_yyyymmdd
        = _date_key ⟨2026, 1, 5⟩
    ∧ run_once { defaultConfig with enable_holiday_jp := false, enable_holiday_us := false }
        ⟨⟨2026, 1, 4⟩, 11, 0, 0⟩ (Except.ok []) (Except.ok []) false
        (updateState {}
          { defaultConfig with enable_holiday_jp := false, enable_holiday_us := false }
          ⟨2026, 1, 5⟩ ⟨⟨2026, 1, 4⟩, 10, 30, 0⟩)
      = Except.ok ⟨0, 0,
          updateState {}
            { defaultConfig with enable_holiday_jp := false, enable_holiday_us := false }
            ⟨2026, 1, 5⟩ ⟨⟨2026, 1, 4⟩, 10, 30, 0⟩⟩ :=
  run_once_dedup_exactly_one_dispatch
    { defaultConfig with enable_holiday_jp := false, enable_holiday_us := false }
    ⟨⟨2026, 1, 4⟩, 10, 30, 0⟩ ⟨⟨2026, 1, 4⟩, 11, 0, 0⟩ (Except.ok []) (Except.ok [])
    none none false {} ⟨2026, 1, 5⟩ 5 5 rfl rfl (by decide) (by decide) (by decide)
    (by decide) (by decide) rfl (Or.inr rfl)

/-- C7: `main` returns 0 whenever `run_once` completes (nothing to notify, successful
dispatch, or suppressed duplicate all return 0); an input error yields exit status 2 at
once with no retry; a transient dispatch error triggers exactly one re-run of the full
evaluation after a fixed 10-second delay, and a second dispatch failure yields exit
status 1 with the persisted state unchanged. -/
theorem main_exit_status_spec (cfg : Config) (now1 now2 : DateTime)
    (jp us : Except Unit (List Nat)) (st : NotifState) (d1 d2 : Bool) :
    (∀ out : RunOut, run_once cfg now1 jp us d1 st = Except.ok out →
        out.exit = 0
        ∧ main_model cfg now1 now2 jp us st d1 d2 = (0, [Event.attempt], out.state))
    ∧ (run_once cfg now1 jp us d1 st = Except.error RunErr.inputError →
        main_model cfg now1 now2 jp us st d1 d2 = (2, [Event.attempt], st))
    ∧ (run_once cfg now1 jp us d1 st = Except.error RunErr.dispatchError →
        run_once cfg now2 jp us d2 st = Except.error RunErr.dispatchError →
        main_model cfg now1 now2 jp us st d1 d2
          = (1, [Event.attempt, Event.sleep 10, Event.attempt], st))
    ∧ (run_once cfg now1 jp us d1 st = Except.error RunErr.dispatchError →
        ∀ out : RunOut, run_once cfg now2 jp us d2 st = Except.ok out →
        out.exit = 0
        ∧ main_model cfg now1 now2 jp us st d1 d2
          = (0, [Event.attempt, Event.sleep 10, Event.attempt], out.state)) := by
  refine ⟨?_, ?_, ?_, ?_⟩
  · intro out h
    have h0 := run_once_exit_zero cfg now1 jp us d1 st out h
    refine ⟨h0, ?_⟩
    simp [main_model, h, h0]
  · intro h
    simp [main_model, h]
  · intro h1 h2
    simp [main_model, h1, h2]
  · intro h1 out h2
    have h0 := run_once_exit_zero cfg now2 jp us d2 st out h2
    refine ⟨h0, ?_⟩
    simp [main_model, h1, h2, h0]

/-- Witness for C7: the three scenarios (nothing to notify, input error, two consecutive
dispatch failures) instantiated on concrete inputs around January 2026. -/
theorem main_exit_status_witness :
    main_model { defaultConfig with enable_holiday_jp := false, enable_holiday_us := false }
        ⟨⟨2026, 1, 7⟩, 12, 0, 0⟩ ⟨⟨2026, 1, 7⟩, 12, 0, 10⟩ (Except.ok []) (Except.ok [])
        {} true true
      = (0, [Event.attempt], ({} : NotifState))
    ∧ main_model defaultConfig ⟨⟨2026, 1, 7⟩, 12, 0, 0⟩ ⟨⟨2026, 1, 7⟩, 12, 0, 10⟩
        (Except.error ()) (Except.error ()) {} true true
      = (2, [Event.attempt], ({} : NotifState))
    ∧ main_model { defaultConfig with enable_holiday_jp := false, enable_holiday_us := false }
        ⟨⟨2026, 1, 4⟩, 10, 30, 0⟩ ⟨⟨2026, 1, 4⟩, 10, 30, 10⟩ (Except.ok []) (Except.ok [])
        {} false false
      = (1, [Event.attempt, Event.sleep 10, Event.attempt], ({} : NotifState)) :=
  ⟨((main_exit_status_spec
      { defaultConfig with enable_holiday_jp := false, enable_holiday_us := false }
      ⟨⟨2026, 1, 7⟩, 12, 0, 0⟩ ⟨⟨2026, 1, 7⟩, 12, 0, 10⟩ (Except.ok []) (Except.ok [])
      {} true true).1 ⟨0, 0, {}⟩ rfl).2,
   (main_exit_status_spec defaultConfig ⟨⟨2026, 1, 7⟩, 12, 0, 0⟩ ⟨⟨2026, 1, 7⟩, 12, 0, 10⟩
      (Except.error ()) (Except.error ()) {} true true).2.1 rfl,
   (main_exit_status_spec
      { defaultConfig with enable_holiday_jp := false, enable_holiday_us := false }
      ⟨⟨2026, 1, 4⟩, 10, 30, 0⟩ ⟨⟨2026, 1, 4⟩, 10, 30, 10⟩ (Except.ok []) (Except.ok [])
      {} false false).2.2.1 rfl rfl⟩

/-- C9: with year-end-closure exclusion enabled and holiday sets that do not contain
2026-12-30, base day 31 is not generated for December 2026, and `is_fixing_day` on
2026-12-30 (a Wednesday that normalizes to itself) reports found = true with base
day 30. -/
theorem december_2026_scenario (cfg : Config) (jp us : Option (List Nat))
    (hex : cfg.exclude_yearend_bank_closure = true)
    (hjp : ∀ l, jp = some l → (20261230 : Nat) ∉ l)
    (hus : ∀ l, us = some l → (20261230 : Nat) ∉ l) :
    31 ∉ build_gotobi_base_days 2026 12 cfg
    ∧ is_fixing_day ⟨2026, 12, 30⟩ jp us cfg = (true, 30) := by
  have hdim : _days_in_month 2026 12 = 31 := by decide
  have hbuild : build_gotobi_base_days 2026 12 cfg = [5, 10, 15, 20, 25, 30] := by
    simp [build_gotobi_base_days, hdim, hex]
  have hkey : _date_key ⟨2026, 12, 30⟩ = 20261230 := by decide
  have hye : _is_yearend_closure_day ⟨2026, 12, 30⟩ = false := by decide
  refine ⟨by rw [hbuild]; decide, ?_⟩
  have hbiz : is_biz_day ⟨2026, 12, 30⟩ jp us cfg = true := by
    have hwk : decide (5 ≤ weekday ⟨2026, 12, 30⟩) = false := by decide
    have hjp' : holidayHit ⟨2026, 12, 30⟩ jp = false := by
      cases jp with
      | none => rfl
      | some l =>
        simp only [holidayHit, _is_holiday, hkey]
        exact contains_eq_false_of_not_mem (hjp l rfl)
    have hus' : holidayHit ⟨2026, 12, 30⟩ us = false := by
      cases us with
      | none => rfl
      | some l =>
        simp only [holidayHit, _is_holiday, hkey]
        exact contains_eq_false_of_not_mem (hus l rfl)
    simp [is_biz_day, hwk, hye, hjp', hus']
  have hnorm30 : normalize_biz_day ⟨2026, 12, 30⟩ jp us cfg = ⟨2026, 12, 30⟩ :=
    normalize_biz_day_fix _ jp us cfg hbiz
  have hne : ∀ b : Nat, b ≤ 29 →
      normalize_biz_day ⟨2026, 12, b⟩ jp us cfg ≠ ⟨2026, 12, 30⟩ := by
    intro b hb heq
    have hk := date_key_normalize_le ⟨2026, 12, b⟩ jp us cfg
      ⟨Nat.le_refl 12, show b ≤ 31 by omega⟩ (by norm_num)
    rw [heq] at hk
    have hk2 : (2026 * 10000 + 12 * 100 + 30 : Nat) ≤ 2026 * 10000 + 12 * 100 + b := by
      simpa [_date_key] using hk
    omega
  show is_fixing_day_go ⟨2026, 12, 30⟩ jp us cfg (build_gotobi_base_days 2026 12 cfg)
      = (true, 30)
  rw [hbuild]
  rw [is_fixing_day_go_cons_ne ⟨2026, 12, 30⟩ jp us cfg 5 _ (hne 5 (by norm_num))]
  rw [is_fixing_day_go_cons_ne ⟨2026, 12, 30⟩ jp us cfg 10 _ (hne 10 (by norm_num))]
  rw [is_fixing_day_go_cons_ne ⟨2026, 12, 30⟩ jp us cfg 15 _ (hne 15 (by norm_num))]
  rw [is_fixing_day_go_cons_ne ⟨2026, 12, 30⟩ jp us cfg 20 _ (hne 20 (by norm_num))]
  rw [is_fixing_day_go_cons_ne ⟨2026, 12, 30⟩ jp us cfg 25 _ (hne 25 (by norm_num))]
  simp [is_fixing_day_go, hnorm30, hex, hye]

/-- Witness for C9: the default configuration with no holiday sets supplied. -/
theorem december_2026_scenario_witness :
    31 ∉ build_gotobi_base_days 2026 12 defaultConfig
    ∧ is_fixing_day ⟨2026, 12, 30⟩ none none defaultConfig = (true, 30) :=
  december_2026_scenario defaultConfig none none rfl (fun _ h => nomatch h)
    (fun _ h => nomatch h)

example : weekday ⟨2026, 1, 5⟩ = 0 := by decide
example : weekday ⟨2026, 12, 31⟩ = 3 := by decide
example : weekday ⟨2026, 12, 30⟩ = 2 := by decide
example : weekday ⟨2024, 2, 29⟩ = 3 := by decide
example : _days_in_month 2024 2 = 29 := by decide
example : _days_in_month 2026 2 = 28 := by decide
example : build_gotobi_base_days 2026 12 defaultConfig = [5, 10, 15, 20, 25, 30] := by decide
example : build_gotobi_base_days 2026 1 defaultConfig = [5, 10, 15, 20, 25, 30, 31] := by decide
example : build_gotobi_base_days 2026 2 defaultConfig = [5, 10, 15, 20, 25, 28] := by decide
example : normalize_biz_day ⟨2026, 1, 10⟩ none none defaultConfig = ⟨2026, 1, 9⟩ := by decide
example : is_fixing_day ⟨2026, 1, 5⟩ none none defaultConfig = (true, 5) := by decide
example : is_fixing_day ⟨2026, 1, 8⟩ none none defaultConfig = (false, 0) := by decide
example : is_fixing_day ⟨2026, 12, 30⟩ none none defaultConfig = (true, 30) := by decide
example : normalize_biz_day ⟨2026, 6, 30⟩ (some adversarialKeys) none defaultConfig
    = ⟨2026, 5, 1⟩ := by decide
example : normalize_biz_day ⟨2026, 5, 1⟩ (some adversarialKeys) none defaultConfig
    = ⟨2026, 3, 2⟩ := by decide
example : choose_fixing_date ⟨⟨2026, 1, 4⟩, 10, 30, 0⟩ none none defaultConfig
    = (some ⟨2026, 1, 5⟩, 5) := by decide
example : in_notify_window ⟨⟨2026, 1, 4⟩, 10, 30, 0⟩ ⟨2026, 1, 5⟩ defaultConfig = true := by
  decide
example : in_notify_window ⟨⟨2026, 1, 4⟩, 9, 59, 59⟩ ⟨2026, 1, 5⟩ defaultConfig = false := by
  decide
example : in_notify_window ⟨⟨2026, 1, 5⟩, 9, 55, 0⟩ ⟨2026, 1, 5⟩ defaultConfig = false := by
  decide
